import Mathlib

/-! Shallow embedding of `jetstream/engine/engine_api.py`: the packed
result-token buffer (`ResultTokens`, `SlotData`), the abstract executor
contract (`Engine`), and the forwarding facade (`JetStreamEngine`).
Arrays (`jax.Array` / `np.ndarray`) are modelled as lists of rows tagged
with their residency (device or host); numpy slicing `l[s:e]` clamps at
the ends, which `List.drop`/`List.take` reproduce for natural indices. -/

/-- Whether an array lives on an accelerator device (a `jax.Array`) or in
host memory (a `np.ndarray`). -/
inductive Residency where
  | device
  | host
deriving DecidableEq

/-- An array value together with its residency; models the source's
`Union[jax.Array, np.ndarray]` fields.  `elems` are the rows (for 2-D
arrays) or the scalars (for 1-D arrays). -/
structure Arr (α : Type) where
  residency : Residency
  elems : List α
deriving DecidableEq

/-- numpy `a[s:e, c0:c1]`: slice rows `s:e`, then columns `c0:c1`,
with Python clamping semantics.  Residency is preserved by slicing. -/
def Arr.slice2d (a : Arr (List Int)) (s e c0 c1 : Nat) : Arr (List Int) :=
  ⟨a.residency,
   ((a.elems.drop s).take (e - s)).map (fun row => (row.drop c0).take (c1 - c0))⟩

/-- numpy fancy indexing `a[slots, c0:c1]`: gather the rows listed in
`slots`, then slice columns `c0:c1`. -/
def Arr.gather2d (a : Arr (List Int)) (slots : List Nat) (c0 c1 : Nat) :
    Arr (List Int) :=
  ⟨a.residency,
   slots.map (fun s => ((a.elems.getD s []).drop c0).take (c1 - c0))⟩

/-- numpy fancy indexing `a[slots, :]`: gather whole rows. -/
def Arr.gatherRows (a : Arr (List Int)) (slots : List Nat) : Arr (List Int) :=
  ⟨a.residency, slots.map (fun s => a.elems.getD s [])⟩

/-- numpy `m[:, 0]`: column 0 of a 2-D array, as a 1-D array. -/
def Arr.col0 (a : Arr (List Int)) : Arr Int :=
  ⟨a.residency, a.elems.map (fun row => row.headD 0)⟩

/-- `np.array(x)`: materialize a host-resident copy with the same elements. -/
def Arr.toNumpy (a : Arr α) : Arr α :=
  ⟨Residency.host, a.elems⟩

/-- `SlotData`: the sliced view for one or more slots.  `log_prob`
defaults to `None` exactly as in the source dataclass. -/
structure SlotData where
  tokens : Arr (List Int)
  valid : Arr (List Int)
  lengths : Arr Int
  log_prob : Option (Arr (List Int)) := none
deriving DecidableEq

/-- `ResultTokens`: one dense `[rows, width]` buffer plus the three
half-open column ranges and the rows-per-slot count.  `log_prob`
defaults to `None` as in the source. -/
structure ResultTokens where
  data : Arr (List Int)
  tokens_idx : Nat × Nat
  valid_idx : Nat × Nat
  length_idx : Nat × Nat
  samples_per_slot : Nat
  log_prob : Option (Arr (List Int)) := none
deriving DecidableEq

/-- The observable outcome of `copy_to_host_async` (the Python method
itself always returns `None`; what varies is the side effect). -/
inductive HostCopyEffect where
  | noop
  | scheduled
deriving DecidableEq

/-- `ResultTokens.copy_to_host_async`: do nothing when `data` is already a
numpy array, else start an asynchronous device-to-host transfer.  The
method assigns no field of `self`, so the state component is unchanged. -/
def ResultTokens.copy_to_host_async (r : ResultTokens) :
    HostCopyEffect × ResultTokens :=
  match r.data.residency with
  | Residency.host => (HostCopyEffect.noop, r)
  | Residency.device => (HostCopyEffect.scheduled, r)

/-- `ResultTokens.convert_to_numpy`: rebuild the structure around
`np.array(self.data)`, passing the index metadata, `samples_per_slot`
and `log_prob` through unchanged. -/
def ResultTokens.convert_to_numpy (r : ResultTokens) : ResultTokens :=
  { data := r.data.toNumpy
    tokens_idx := r.tokens_idx
    valid_idx := r.valid_idx
    length_idx := r.length_idx
    samples_per_slot := r.samples_per_slot
    log_prob := r.log_prob }

/-- `ResultTokens.get_result_at_slot`: rows
`[slot * samples_per_slot, (slot + 1) * samples_per_slot)`, each column
range sliced out, `lengths` reduced to column 0 of its range.  The
`SlotData` is built without a `log_prob` argument, so it gets the
default `None`. -/
def ResultTokens.get_result_at_slot (r : ResultTokens) (slot : Nat) : SlotData :=
  let start_idx := slot * r.samples_per_slot
  let end_idx := (slot + 1) * r.samples_per_slot
  { tokens := r.data.slice2d start_idx end_idx r.tokens_idx.1 r.tokens_idx.2
    valid := r.data.slice2d start_idx end_idx r.valid_idx.1 r.valid_idx.2
    lengths := (r.data.slice2d start_idx end_idx r.length_idx.1 r.length_idx.2).col0 }

/-- `ResultTokens.get_result_at_slots`: fancy-index the rows by the given
slot tuple (the source uses the slot values directly as row indices),
slice each column range, and gather `log_prob` rows when present. -/
def ResultTokens.get_result_at_slots (r : ResultTokens) (slots : List Nat) : SlotData :=
  { tokens := r.data.gather2d slots r.tokens_idx.1 r.tokens_idx.2
    valid := r.data.gather2d slots r.valid_idx.1 r.valid_idx.2
    lengths := (r.data.gather2d slots r.length_idx.1 r.length_idx.2).col0
    log_prob :=
      match r.log_prob with
      | some lp => some (lp.gatherRows slots)
      | none => none }

/-- The documented shape invariant of a `ResultTokens` buffer serving
`mcd` concurrent decodes: `rows = mcd * samples_per_slot`, every column
range is a half-open interval lying inside every row, and the length
range is nonempty (its column 0 exists). -/
def ResultTokens.WellFormed (r : ResultTokens) (mcd : Nat) : Prop :=
  r.data.elems.length = mcd * r.samples_per_slot ∧
  r.tokens_idx.1 ≤ r.tokens_idx.2 ∧
  r.valid_idx.1 ≤ r.valid_idx.2 ∧
  r.length_idx.1 < r.length_idx.2 ∧
  ∀ row ∈ r.data.elems,
    r.tokens_idx.2 ≤ row.length ∧ r.valid_idx.2 ≤ row.length ∧
      r.length_idx.2 ≤ row.length

/-- Index-by-index description of a numpy sub-matrix: entry `(i, j)` is
`m[r0 + i][c0 + j]`, for `i < nrows`, `j < ncols`. -/
def subMatrix (m : List (List Int)) (r0 nrows c0 ncols : Nat) : List (List Int) :=
  (List.range nrows).map
    (fun i => (List.range ncols).map (fun j => (m.getD (r0 + i) []).getD (c0 + j) 0))

/-- Row-wise concatenation of two `SlotData` views (the "row-wise union,
in the given order" of the spec).  `log_prob` concatenates when both
sides carry it, else is absent. -/
def SlotData.vcat (x y : SlotData) : SlotData :=
  { tokens := ⟨x.tokens.residency, x.tokens.elems ++ y.tokens.elems⟩
    valid := ⟨x.valid.residency, x.valid.elems ++ y.valid.elems⟩
    lengths := ⟨x.lengths.residency, x.lengths.elems ++ y.lengths.elems⟩
    log_prob :=
      match x.log_prob, y.log_prob with
      | some a, some b => some ⟨a.residency, a.elems ++ b.elems⟩
      | _, _ => none }

/-- `ExistingPrefix`: a previously computed cache plus the tokens it
represents.  The `cache` field is `Any` in the source, so it is a type
parameter here. -/
structure ExistingPrefix (Cache : Type) where
  cache : Cache
  common_prefix_tokens : List Int
deriving DecidableEq

/-- The opaque `Any`-aliased types of the source (`Params`, `Prefix`,
`DecodeState`, ...), bound by each concrete executor. -/
structure Sig where
  Params : Type
  Prefix : Type
  Cache : Type
  DecodeState : Type
  Sampler : Type
  RequestId : Type
  PRNGKey : Type
  TokenizerParams : Type
  Tokenizer : Type
  Mesh : Type
  CpuDevices : Type
  Sharding : Type
  LoadArgs : Type
  InitArgs : Type
  Buckets : Type

/-- The `Engine` abstract contract: one field per abstract method or
abstract property.  `build_tokenizer` is the method as resolved on the
engine object (the source base class gives it a default body building a
SentencePiece tokenizer; which body an engine carries is irrelevant to
the facade, which just calls it).  `free_resource` is not a field: it is
not abstract and is defined once below, as in the source. -/
structure Engine (S : Sig) where
  prefill : S.Params → Option (ExistingPrefix S.Cache) → List Int → Nat →
    Option S.Sampler → Option S.RequestId → S.Prefix × ResultTokens
  prefill_multisampling : S.Params → Option (List Int) → List Int → Nat →
    Option S.Sampler → Option S.PRNGKey → Nat → S.Prefix × ResultTokens
  generate : S.Params → S.DecodeState → Option S.Sampler →
    S.DecodeState × ResultTokens
  insert : S.Prefix → S.DecodeState → Nat → Option S.RequestId → S.DecodeState
  bulk_insert : S.Prefix → S.DecodeState → List Nat → S.DecodeState
  load_params : S.LoadArgs → S.Params
  get_prefix_destination_sharding : S.Sharding
  get_tokenizer : S.TokenizerParams
  build_tokenizer : S.TokenizerParams → S.Tokenizer
  init_decode_state : S.InitArgs → S.DecodeState
  max_concurrent_decodes : Nat
  samples_per_slot : Nat
  max_prefill_length : Nat
  mesh : S.Mesh
  colocated_cpus : Option (List S.CpuDevices)
  use_chunked_prefill : Bool
  prefill_chunk_size : Nat

/-- `Engine.free_resource`: the non-abstract default, whose body is only
`return None`.  It is inherited unchanged by any engine class that does
not override it, whatever its self state `σ` is; the state component is
returned untouched because the body assigns nothing. -/
def Engine.free_resource {σ : Type} (self : σ) (slot : Nat) : σ × Option Unit :=
  (self, none)

/-- `JetStreamEngine`: the facade object's fields, exactly those assigned
in `__init__`. -/
structure JetStreamEngine (S : Sig) where
  _downstream_engine : Engine S
  prefill_buckets : Option S.Buckets
  warm : Bool

/-- `JetStreamEngine.__init__(downstream_engine)`: store the wrapped
engine and initialise the bookkeeping fields. -/
def JetStreamEngine.init {S : Sig} (downstream_engine : Engine S) :
    JetStreamEngine S :=
  { _downstream_engine := downstream_engine
    prefill_buckets := none
    warm := false }

/-- Facade `prefill`: its signature has no `sampler` or `request_id`
parameter, and its ` existing_prefix` argument is accepted (annotated
`Optional[Prefix]`) but never passed on — the downstream call supplies
only `params`, `padded_tokens` and `true_length`, so the downstream
engine sees its defaults `existing_prefix=None`, `sampler=None`,
`request_id=None`. -/
def JetStreamEngine.prefill {S : Sig} (self : JetStreamEngine S)
    (params : S.Params) ( existing_prefix : Option S.Prefix)
    (padded_tokens : List Int) (true_length : Nat) :
    JetStreamEngine S × (S.Prefix × ResultTokens) :=
  (self, self._downstream_engine.prefill params none padded_tokens true_length
    none none)

/-- Facade `prefill_multisampling`: forwards every argument unchanged. -/
def JetStreamEngine.prefill_multisampling {S : Sig} (self : JetStreamEngine S)
    (params : S.Params) ( existing_prefix : Option (List Int))
    (padded_tokens : List Int) (true_length : Nat) (sampler : Option S.Sampler)
    (rng : Option S.PRNGKey) (num_samples : Nat) :
    JetStreamEngine S × (S.Prefix × ResultTokens) :=
  (self, self._downstream_engine.prefill_multisampling params existing_prefix
    padded_tokens true_length sampler rng num_samples)

/-- Facade `generate`: its signature has no `sampler` parameter, and the
downstream call passes only `params` and `decode_state`, so the
downstream engine sees `sampler=None`. -/
def JetStreamEngine.generate {S : Sig} (self : JetStreamEngine S)
    (params : S.Params) (decode_state : S.DecodeState) :
    JetStreamEngine S × (S.DecodeState × ResultTokens) :=
  (self, self._downstream_engine.generate params decode_state none)

/-- Facade `insert`: forwards every argument unchanged. -/
def JetStreamEngine.insert {S : Sig} (self : JetStreamEngine S)
    (pfx : S.Prefix) (decode_state : S.DecodeState) (slot : Nat)
    (request_id : Option S.RequestId) : JetStreamEngine S × S.DecodeState :=
  (self, self._downstream_engine.insert pfx decode_state slot request_id)

/-- Facade `bulk_insert`: forwards every argument unchanged. -/
def JetStreamEngine.bulk_insert {S : Sig} (self : JetStreamEngine S)
    (pfx : S.Prefix) (decode_state : S.DecodeState) (slots : List Nat) :
    JetStreamEngine S × S.DecodeState :=
  (self, self._downstream_engine.bulk_insert pfx decode_state slots)

/-- Facade `free_resource`: not overridden in the source, so Python method
resolution finds the inherited `Engine.free_resource` default, which
ignores the wrapped engine entirely. -/
def JetStreamEngine.free_resource {S : Sig} (self : JetStreamEngine S)
    (slot : Nat) : JetStreamEngine S × Option Unit :=
  Engine.free_resource self slot

/-- Facade `load_params`: forwards `*args, **kwargs` unchanged. -/
def JetStreamEngine.load_params {S : Sig} (self : JetStreamEngine S)
    (args : S.LoadArgs) : JetStreamEngine S × S.Params :=
  (self, self._downstream_engine.load_params args)

/-- Facade `get_prefix_destination_sharding`: forwards the call. -/
def JetStreamEngine.get_prefix_destination_sharding {S : Sig}
    (self : JetStreamEngine S) : JetStreamEngine S × S.Sharding :=
  (self, self._downstream_engine.get_prefix_destination_sharding)

/-- Facade `get_tokenizer`: forwards the call. -/
def JetStreamEngine.get_tokenizer {S : Sig} (self : JetStreamEngine S) :
    JetStreamEngine S × S.TokenizerParams :=
  (self, self._downstream_engine.get_tokenizer)

/-- Facade `build_tokenizer`: overridden to forward to the wrapped engine
(unlike the base default, it builds nothing itself). -/
def JetStreamEngine.build_tokenizer {S : Sig} (self : JetStreamEngine S)
    (metadata : S.TokenizerParams) : JetStreamEngine S × S.Tokenizer :=
  (self, self._downstream_engine.build_tokenizer metadata)

/-- Facade `init_decode_state`: forwards `*args, **kwargs` unchanged. -/
def JetStreamEngine.init_decode_state {S : Sig} (self : JetStreamEngine S)
    (args : S.InitArgs) : JetStreamEngine S × S.DecodeState :=
  (self, self._downstream_engine.init_decode_state args)

/-- Facade property `max_concurrent_decodes`, read through the wrapper. -/
def JetStreamEngine.max_concurrent_decodes {S : Sig}
    (self : JetStreamEngine S) : JetStreamEngine S × Nat :=
  (self, self._downstream_engine.max_concurrent_decodes)

/-- Facade property `samples_per_slot`, read through the wrapper. -/
def JetStreamEngine.samples_per_slot {S : Sig} (self : JetStreamEngine S) :
    JetStreamEngine S × Nat :=
  (self, self._downstream_engine.samples_per_slot)

/-- Facade property `max_prefill_length`, read through the wrapper. -/
def JetStreamEngine.max_prefill_length {S : Sig} (self : JetStreamEngine S) :
    JetStreamEngine S × Nat :=
  (self, self._downstream_engine.max_prefill_length)

/-- Facade property `mesh`, read through the wrapper. -/
def JetStreamEngine.mesh {S : Sig} (self : JetStreamEngine S) :
    JetStreamEngine S × S.Mesh :=
  (self, self._downstream_engine.mesh)

/-- Facade property `colocated_cpus`, read through the wrapper. -/
def JetStreamEngine.colocated_cpus {S : Sig} (self : JetStreamEngine S) :
    JetStreamEngine S × Option (List S.CpuDevices) :=
  (self, self._downstream_engine.colocated_cpus)

/-- Facade property `use_chunked_prefill`, read through the wrapper. -/
def JetStreamEngine.use_chunked_prefill {S : Sig} (self : JetStreamEngine S) :
    JetStreamEngine S × Bool :=
  (self, self._downstream_engine.use_chunked_prefill)

/-- Facade property `prefill_chunk_size`, read through the wrapper. -/
def JetStreamEngine.prefill_chunk_size {S : Sig} (self : JetStreamEngine S) :
    JetStreamEngine S × Nat :=
  (self, self._downstream_engine.prefill_chunk_size)

/-- The spec's example buffer: `max_concurrent_decodes = 4`,
`samples_per_slot = 1`, layout `tokens_idx = (0,1)`, `valid_idx = (1,2)`,
`length_idx = (2,3)`. -/
def exampleResult : ResultTokens :=
  { data := ⟨Residency.host, [[5, 1, 3], [7, 1, 1], [0, 0, 0], [9, 1, 5]]⟩
    tokens_idx := (0, 1)
    valid_idx := (1, 2)
    length_idx := (2, 3)
    samples_per_slot := 1 }

/-- A multi-sampling buffer: `max_concurrent_decodes = 2`,
`samples_per_slot = 2`, same column layout as the spec example. -/
def multiSampleResult : ResultTokens :=
  { data := ⟨Residency.host, [[5, 1, 1], [7, 1, 2], [8, 1, 3], [9, 1, 4]]⟩
    tokens_idx := (0, 1)
    valid_idx := (1, 2)
    length_idx := (2, 3)
    samples_per_slot := 2 }

/-- The spec example buffer extended with per-row log probabilities. -/
def logProbResult : ResultTokens :=
  { exampleResult with log_prob := some ⟨Residency.host, [[10], [20], [30], [40]]⟩ }

/-- An empty placeholder `ResultTokens`, used by the mock executor. -/
def emptyResult : ResultTokens :=
  { data := ⟨Residency.host, []⟩
    tokens_idx := (0, 0)
    valid_idx := (0, 0)
    length_idx := (0, 0)
    samples_per_slot := 1 }

/-- A concrete binding of the opaque types for the mock executor.  The
`Prefix` produced by `prefill` is itself an `ExistingPrefix Unit`, so the
facade and the wrapped engine can be handed the very same
` existing_prefix` argument. -/
def mockSig : Sig :=
  { Params := Unit
    Prefix := ExistingPrefix Unit
    Cache := Unit
    DecodeState := Unit
    Sampler := Unit
    RequestId := Unit
    PRNGKey := Unit
    TokenizerParams := Unit
    Tokenizer := Unit
    Mesh := Unit
    CpuDevices := Unit
    Sharding := Unit
    LoadArgs := Unit
    InitArgs := Unit
    Buckets := Unit }

/-- A mock executor whose `prefill` records in the returned prefix whether
an `existing_prefix` argument reached it. -/
def mockEngine : Engine mockSig :=
  { prefill := fun _ ep _ _ _ _ =>
      (⟨(), match ep with | some _ => [1] | none => []⟩, emptyResult)
    prefill_multisampling := fun _ _ _ _ _ _ _ => (⟨(), []⟩, emptyResult)
    generate := fun _ d _ => (d, emptyResult)
    insert := fun _ d _ _ => d
    bulk_insert := fun _ d _ => d
    load_params := fun _ => ()
    get_prefix_destination_sharding := ()
    get_tokenizer := ()
    build_tokenizer := fun _ => ()
    init_decode_state := fun _ => ()
    max_concurrent_decodes := 1
    samples_per_slot := 1
    max_prefill_length := 1
    mesh := ()
    colocated_cpus := none
    use_chunked_prefill := false
    prefill_chunk_size := 1 }

/-- The facade wrapped around the mock executor. -/
def mockFacade : JetStreamEngine mockSig :=
  JetStreamEngine.init mockEngine

/-- A concrete `ExistingPrefix` argument for the mock executor. -/
def mockEP : ExistingPrefix Unit :=
  ⟨(), [5]⟩

/-- A contiguous Python slice `l[s : s + n]`, written index by index. -/
lemma drop_take_eq_range_map {α : Type} (l : List α) (d : α) (s n : Nat)
    (h : s + n ≤ l.length) :
    (l.drop s).take n = (List.range n).map (fun i => l.getD (s + i) d) := by
  apply List.ext_getElem
  · rw [List.length_take, List.length_drop, List.length_map, List.length_range]
    omega
  · intro i h1 h2
    have hi : i < n := by
      rw [List.length_map, List.length_range] at h2
      exact h2
    have hsi : s + i < l.length := by omega
    rw [List.getElem_take, List.getElem_drop, List.getElem_map,
      List.getElem_range, List.getD_eq_getElem l d hsi]

/-- A Python slice of length one is the singleton of the indexed element. -/
lemma drop_take_one {α : Type} (l : List α) (d : α) (s : Nat)
    (h : s < l.length) :
    (l.drop s).take 1 = [l.getD s d] := by
  rw [List.drop_eq_getElem_cons h, List.getD_eq_getElem l d h]
  rfl

/-- The head of a nonempty Python slice `l[s : s + n]` is `l[s]`. -/
lemma headD_drop_take {α : Type} (l : List α) (d : α) (s n : Nat)
    (hs : s < l.length) (hn : 0 < n) :
    ((l.drop s).take n).headD d = l.getD s d := by
  rw [List.drop_eq_getElem_cons hs]
  cases n with
  | zero => omega
  | succ m => rw [List.getD_eq_getElem l d hs]; rfl

/-- Length of a Python slice that stays inside the list. -/
lemma length_drop_take {α : Type} (l : List α) (s n : Nat)
    (h : s + n ≤ l.length) :
    ((l.drop s).take n).length = n := by
  rw [List.length_take, List.length_drop]
  exact Nat.min_eq_left (by omega)

/-- The row range of one slot stays inside a well-formed buffer. -/
lemma slot_rows_le (r : ResultTokens) (mcd slot : Nat)
    (hlen : r.data.elems.length = mcd * r.samples_per_slot) (hs : slot < mcd) :
    slot * r.samples_per_slot + r.samples_per_slot ≤ r.data.elems.length := by
  calc slot * r.samples_per_slot + r.samples_per_slot
      = (slot + 1) * r.samples_per_slot := (Nat.succ_mul slot r.samples_per_slot).symm
    _ ≤ mcd * r.samples_per_slot := Nat.mul_le_mul_right r.samples_per_slot hs
    _ = r.data.elems.length := hlen.symm

/-- C10: `get_result_at_slot` never exposes log probabilities: the
`SlotData` it builds always carries `log_prob = None`, even when the
`ResultTokens` itself has a non-`None` `log_prob`. -/
theorem get_result_at_slot_log_prob_none (r : ResultTokens) (slot : Nat) :
    (r.get_result_at_slot slot).log_prob = none :=
  rfl

/-- C5: `convert_to_numpy` is idempotent, preserves `tokens_idx`,
`valid_idx`, `length_idx` and `samples_per_slot`, and yields a
host-resident data buffer with exactly the elements of the original. -/
theorem convert_to_numpy_idempotent (r : ResultTokens) :
    r.convert_to_numpy.convert_to_numpy = r.convert_to_numpy ∧
    r.convert_to_numpy.tokens_idx = r.tokens_idx ∧
    r.convert_to_numpy.valid_idx = r.valid_idx ∧
    r.convert_to_numpy.length_idx = r.length_idx ∧
    r.convert_to_numpy.samples_per_slot = r.samples_per_slot ∧
    r.convert_to_numpy.data.residency = Residency.host ∧
    r.convert_to_numpy.data.elems = r.data.elems :=
  ⟨rfl, rfl, rfl, rfl, rfl, rfl, rfl⟩

/-- C6: on a `ResultTokens` whose data is already host-resident (a numpy
array), `copy_to_host_async` is a no-op: nothing is scheduled and every
field of the structure is left unchanged (the Python method returns
`None` and assigns nothing). -/
theorem copy_to_host_async_noop_on_host (r : ResultTokens)
    (h : r.data.residency = Residency.host) :
    r.copy_to_host_async = (HostCopyEffect.noop, r) := by
  unfold ResultTokens.copy_to_host_async
  rw [h]

theorem copy_to_host_async_noop_on_host_witness :
    exampleResult.data.residency = Residency.host ∧
    exampleResult.copy_to_host_async = (HostCopyEffect.noop, exampleResult) :=
  ⟨rfl, copy_to_host_async_noop_on_host exampleResult rfl⟩

/-- C7: `get_result_at_slots` omits `log_prob` exactly when the buffer has
none, and otherwise returns the gathered `log_prob` rows of the requested
slots, in order, with the residency of the source array. -/
theorem get_result_at_slots_log_prob (r : ResultTokens) (slots : List Nat) :
    (r.log_prob = none → (r.get_result_at_slots slots).log_prob = none) ∧
    (∀ lp, r.log_prob = some lp →
      ∃ g, (r.get_result_at_slots slots).log_prob = some g ∧
        g.residency = lp.residency ∧
        g.elems.length = slots.length ∧
        ∀ i, i < slots.length →
          g.elems.getD i [] = lp.elems.getD (slots.getD i 0) []) := by
  constructor
  · intro h
    simp [ResultTokens.get_result_at_slots, h]
  · intro lp h
    refine ⟨lp.gatherRows slots, ?_, rfl, ?_, ?_⟩
    · simp [ResultTokens.get_result_at_slots, h]
    · simp [Arr.gatherRows]
    · intro i hi
      show (slots.map (fun s => lp.elems.getD s [])).getD i [] = _
      rw [List.getD_eq_getElem _ _ (by simpa using hi), List.getElem_map,
        List.getD_eq_getElem slots 0 hi]

theorem get_result_at_slots_log_prob_witness :
    ∃ g, (logProbResult.get_result_at_slots [1, 3]).log_prob = some g ∧
      g.residency = Residency.host ∧
      g.elems.length = [1, 3].length ∧
      ∀ i, i < [1, 3].length →
        g.elems.getD i [] = [[10], [20], [30], [40]].getD ([1, 3].getD i 0) [] :=
  (get_result_at_slots_log_prob logProbResult [1, 3]).2
    ⟨Residency.host, [[10], [20], [30], [40]]⟩ rfl

/-- C3: on a well-formed buffer, `get_result_at_slot(slot)` is exactly the
index-by-index sub-matrix over rows
`[slot * samples_per_slot, (slot + 1) * samples_per_slot)` for the token
and validity column ranges, with `lengths` the 1-D vector of column
`length_idx.1` of those rows — an expression in which the upper end of
the length range does not occur, so the result is the same however many
columns that range spans. -/
theorem get_result_at_slot_spec (r : ResultTokens) (mcd slot : Nat)
    (h : r.WellFormed mcd) (hs : slot < mcd) :
    r.get_result_at_slot slot =
      { tokens := ⟨r.data.residency,
          subMatrix r.data.elems (slot * r.samples_per_slot) r.samples_per_slot
            r.tokens_idx.1 (r.tokens_idx.2 - r.tokens_idx.1)⟩
        valid := ⟨r.data.residency,
          subMatrix r.data.elems (slot * r.samples_per_slot) r.samples_per_slot
            r.valid_idx.1 (r.valid_idx.2 - r.valid_idx.1)⟩
        lengths := ⟨r.data.residency,
          (List.range r.samples_per_slot).map (fun i =>
            (r.data.elems.getD (slot * r.samples_per_slot + i) []).getD
              r.length_idx.1 0)⟩
        log_prob := none } := by
  obtain ⟨hlen, ht, hv, hl, hrows⟩ := h
  have hbound := slot_rows_le r mcd slot hlen hs
  have hsub : (slot + 1) * r.samples_per_slot - slot * r.samples_per_slot
      = r.samples_per_slot := by
    rw [Nat.add_mul, Nat.one_mul]
    omega
  have hrow_mem : ∀ i, i < r.samples_per_slot →
      r.data.elems.getD (slot * r.samples_per_slot + i) [] ∈ r.data.elems := by
    intro i hi
    have hlt : slot * r.samples_per_slot + i < r.data.elems.length := by omega
    rw [List.getD_eq_getElem _ _ hlt]
    exact List.getElem_mem hlt
  simp only [ResultTokens.get_result_at_slot, Arr.slice2d, Arr.col0, subMatrix,
    SlotData.mk.injEq, Arr.mk.injEq]
  refine ⟨⟨by trivial, ?_⟩, ⟨by trivial, ?_⟩, ⟨by trivial, ?_⟩, by trivial⟩
  · rw [hsub, drop_take_eq_range_map r.data.elems [] _ _ hbound, List.map_map]
    apply List.map_congr_left
    intro i hi
    have hi' : i < r.samples_per_slot := List.mem_range.mp hi
    have hrlen := (hrows _ (hrow_mem i hi')).1
    show ((r.data.elems.getD (slot * r.samples_per_slot + i) []).drop
        r.tokens_idx.1).take (r.tokens_idx.2 - r.tokens_idx.1) = _
    rw [drop_take_eq_range_map (r.data.elems.getD (slot * r.samples_per_slot + i) [])
      0 r.tokens_idx.1 (r.tokens_idx.2 - r.tokens_idx.1) (by omega)]
  · rw [hsub, drop_take_eq_range_map r.data.elems [] _ _ hbound, List.map_map]
    apply List.map_congr_left
    intro i hi
    have hi' : i < r.samples_per_slot := List.mem_range.mp hi
    have hrlen := (hrows _ (hrow_mem i hi')).2.1
    show ((r.data.elems.getD (slot * r.samples_per_slot + i) []).drop
        r.valid_idx.1).take (r.valid_idx.2 - r.valid_idx.1) = _
    rw [drop_take_eq_range_map (r.data.elems.getD (slot * r.samples_per_slot + i) [])
      0 r.valid_idx.1 (r.valid_idx.2 - r.valid_idx.1) (by omega)]
  · rw [hsub, drop_take_eq_range_map r.data.elems [] _ _ hbound, List.map_map,
      List.map_map]
    apply List.map_congr_left
    intro i hi
    have hi' : i < r.samples_per_slot := List.mem_range.mp hi
    have hrlen := (hrows _ (hrow_mem i hi')).2.2
    show (((r.data.elems.getD (slot * r.samples_per_slot + i) []).drop
        r.length_idx.1).take (r.length_idx.2 - r.length_idx.1)).headD 0 = _
    exact headD_drop_take _ 0 _ _ (by omega) (by omega)

theorem get_result_at_slot_spec_witness :
    (exampleResult.WellFormed 4 ∧ 1 < 4 ∧ 2 < 4) ∧
    exampleResult.get_result_at_slot 1 =
      { tokens := ⟨Residency.host, [[7]]⟩
        valid := ⟨Residency.host, [[1]]⟩
        lengths := ⟨Residency.host, [1]⟩ } ∧
    exampleResult.get_result_at_slot 2 =
      { tokens := ⟨Residency.host, [[0]]⟩
        valid := ⟨Residency.host, [[0]]⟩
        lengths := ⟨Residency.host, [0]⟩ } :=
  ⟨⟨by unfold ResultTokens.WellFormed; decide, by decide, by decide⟩,
   (get_result_at_slot_spec exampleResult 4 1
     (by unfold ResultTokens.WellFormed; decide) (by decide)).trans (by decide),
   (get_result_at_slot_spec exampleResult 4 2
     (by unfold ResultTokens.WellFormed; decide) (by decide)).trans (by decide)⟩

/-- C2 (amended): on a well-formed buffer, `get_result_at_slot(slot)`
returns exactly `samples_per_slot` rows in every field; when
`samples_per_slot = 1` those rows coincide with `get_result_at_slots`
applied to the one-element tuple `(slot,)`, field for field (tokens,
valid, lengths).  (For `samples_per_slot > 1` the two accessors diverge:
see the counterexample.) -/
theorem at_slot_row_count_and_singleton (r : ResultTokens) (mcd slot : Nat)
    (h : r.WellFormed mcd) (hs : slot < mcd) :
    (r.get_result_at_slot slot).tokens.elems.length = r.samples_per_slot ∧
    (r.get_result_at_slot slot).valid.elems.length = r.samples_per_slot ∧
    (r.get_result_at_slot slot).lengths.elems.length = r.samples_per_slot ∧
    (r.samples_per_slot = 1 →
      (r.get_result_at_slot slot).tokens = (r.get_result_at_slots [slot]).tokens ∧
      (r.get_result_at_slot slot).valid = (r.get_result_at_slots [slot]).valid ∧
      (r.get_result_at_slot slot).lengths = (r.get_result_at_slots [slot]).lengths) := by
  obtain ⟨hlen, ht, hv, hl, hrows⟩ := h
  have hbound := slot_rows_le r mcd slot hlen hs
  have hsub : (slot + 1) * r.samples_per_slot - slot * r.samples_per_slot
      = r.samples_per_slot := by
    rw [Nat.add_mul, Nat.one_mul]
    omega
  have hlen_rows : ((r.data.elems.drop (slot * r.samples_per_slot)).take
      ((slot + 1) * r.samples_per_slot - slot * r.samples_per_slot)).length
      = r.samples_per_slot := by
    rw [hsub]
    exact length_drop_take _ _ _ hbound
  refine ⟨?_, ?_, ?_, ?_⟩
  · simp only [ResultTokens.get_result_at_slot, Arr.slice2d, List.length_map]
    exact hlen_rows
  · simp only [ResultTokens.get_result_at_slot, Arr.slice2d, List.length_map]
    exact hlen_rows
  · simp only [ResultTokens.get_result_at_slot, Arr.slice2d, Arr.col0,
      List.length_map]
    exact hlen_rows
  · intro h1
    have hslot_lt : slot < r.data.elems.length := by
      rw [hlen, h1, Nat.mul_one]
      exact hs
    refine ⟨?_, ?_, ?_⟩
    · simp only [ResultTokens.get_result_at_slot, ResultTokens.get_result_at_slots,
        Arr.slice2d, Arr.gather2d, h1, Nat.mul_one]
      rw [show slot + 1 - slot = 1 from by omega,
        drop_take_one r.data.elems [] slot hslot_lt]
      rfl
    · simp only [ResultTokens.get_result_at_slot, ResultTokens.get_result_at_slots,
        Arr.slice2d, Arr.gather2d, h1, Nat.mul_one]
      rw [show slot + 1 - slot = 1 from by omega,
        drop_take_one r.data.elems [] slot hslot_lt]
      rfl
    · simp only [ResultTokens.get_result_at_slot, ResultTokens.get_result_at_slots,
        Arr.slice2d, Arr.gather2d, Arr.col0, h1, Nat.mul_one]
      rw [show slot + 1 - slot = 1 from by omega,
        drop_take_one r.data.elems [] slot hslot_lt]
      rfl

theorem at_slot_vs_at_slots_multisample :
    multiSampleResult.WellFormed 2 ∧ 1 < 2 ∧
    multiSampleResult.samples_per_slot = 2 ∧
    ¬ ((multiSampleResult.get_result_at_slot 1).tokens =
       (multiSampleResult.get_result_at_slots [1]).tokens) := by
  refine ⟨by unfold ResultTokens.WellFormed; decide, by decide, by decide, by decide⟩

theorem at_slot_row_count_and_singleton_witness :
    exampleResult.WellFormed 4 ∧ 1 < 4 ∧ exampleResult.samples_per_slot = 1 ∧
    (exampleResult.get_result_at_slot 1).tokens.elems.length
      = exampleResult.samples_per_slot ∧
    (exampleResult.get_result_at_slot 1).tokens
      = (exampleResult.get_result_at_slots [1]).tokens ∧
    (exampleResult.get_result_at_slot 1).valid
      = (exampleResult.get_result_at_slots [1]).valid ∧
    (exampleResult.get_result_at_slot 1).lengths
      = (exampleResult.get_result_at_slots [1]).lengths :=
  ⟨by unfold ResultTokens.WellFormed; decide, by decide, by decide,
   (at_slot_row_count_and_singleton exampleResult 4 1
     (by unfold ResultTokens.WellFormed; decide) (by decide)).1,
   ((at_slot_row_count_and_singleton exampleResult 4 1
     (by unfold ResultTokens.WellFormed; decide) (by decide)).2.2.2 (by decide)).1,
   ((at_slot_row_count_and_singleton exampleResult 4 1
     (by unfold ResultTokens.WellFormed; decide) (by decide)).2.2.2 (by decide)).2.1,
   ((at_slot_row_count_and_singleton exampleResult 4 1
     (by unfold ResultTokens.WellFormed; decide) (by decide)).2.2.2 (by decide)).2.2⟩

/-- C4: for disjoint lists of valid slot indices, gathering their
concatenation is the row-wise concatenation, in order, of the two
gathers, in every field including `log_prob` when present. -/
theorem at_slots_append (r : ResultTokens) (A B : List Nat)
    (hdisj : ∀ s ∈ A, s ∉ B)
    (hvalid : ∀ s ∈ A ++ B, s < r.data.elems.length) :
    r.get_result_at_slots (A ++ B) =
      (r.get_result_at_slots A).vcat (r.get_result_at_slots B) := by
  cases hlp : r.log_prob with
  | none =>
    simp [ResultTokens.get_result_at_slots, Arr.gather2d, Arr.gatherRows,
      Arr.col0, SlotData.vcat, hlp, List.map_append, List.map_map]
  | some lp =>
    simp [ResultTokens.get_result_at_slots, Arr.gather2d, Arr.gatherRows,
      Arr.col0, SlotData.vcat, hlp, List.map_append, List.map_map]

theorem at_slots_append_witness :
    (∀ s ∈ [0], s ∉ [2]) ∧
    (∀ s ∈ ([0] ++ [2] : List Nat), s < exampleResult.data.elems.length) ∧
    exampleResult.get_result_at_slots ([0] ++ [2]) =
      (exampleResult.get_result_at_slots [0]).vcat
        (exampleResult.get_result_at_slots [2]) :=
  ⟨by decide, by decide, at_slots_append exampleResult [0] [2] (by decide) (by decide)⟩

/-- C1 (amended): the facade forwards with these exact argument maps.
`prefill` on the facade takes no `sampler` or `request_id` and discards
its ` existing_prefix` argument: the result is always that of the wrapped
engine's `prefill` with `existing_prefix = None`, `sampler = None`,
`request_id = None`.  `generate` on the facade takes no `sampler`: the
result is that of the wrapped engine's `generate` with `sampler = None`.
Every other forwarded operation and property returns exactly the wrapped
engine's result on the same arguments. -/
theorem facade_forwarding (S : Sig) (j : JetStreamEngine S) (params : S.Params)
    ( existing_prefix : Option S.Prefix) (ep_ms : Option (List Int))
    (padded_tokens : List Int) (true_length : Nat) (sampler : Option S.Sampler)
    (rng : Option S.PRNGKey) (num_samples : Nat) (pfx : S.Prefix)
    (decode_state : S.DecodeState) (slot : Nat)
    (request_id : Option S.RequestId) (slots : List Nat) (largs : S.LoadArgs)
    (iargs : S.InitArgs) (metadata : S.TokenizerParams) :
    (j.prefill params existing_prefix padded_tokens true_length).2 =
      j._downstream_engine.prefill params none padded_tokens true_length
        none none ∧
    (j.generate params decode_state).2 =
      j._downstream_engine.generate params decode_state none ∧
    (j.prefill_multisampling params ep_ms padded_tokens true_length sampler
        rng num_samples).2 =
      j._downstream_engine.prefill_multisampling params ep_ms padded_tokens
        true_length sampler rng num_samples ∧
    (j.insert pfx decode_state slot request_id).2 =
      j._downstream_engine.insert pfx decode_state slot request_id ∧
    (j.bulk_insert pfx decode_state slots).2 =
      j._downstream_engine.bulk_insert pfx decode_state slots ∧
    (j.load_params largs).2 = j._downstream_engine.load_params largs ∧
    (j.init_decode_state iargs).2 =
      j._downstream_engine.init_decode_state iargs ∧
    j.get_tokenizer.2 = j._downstream_engine.get_tokenizer ∧
    (j.build_tokenizer metadata).2 =
      j._downstream_engine.build_tokenizer metadata ∧
    j.get_prefix_destination_sharding.2 =
      j._downstream_engine.get_prefix_destination_sharding ∧
    j.max_concurrent_decodes.2 =
      j._downstream_engine.max_concurrent_decodes ∧
    j.samples_per_slot.2 = j._downstream_engine.samples_per_slot ∧
    j.max_prefill_length.2 = j._downstream_engine.max_prefill_length ∧
    j.mesh.2 = j._downstream_engine.mesh ∧
    j.colocated_cpus.2 = j._downstream_engine.colocated_cpus ∧
    j.use_chunked_prefill.2 = j._downstream_engine.use_chunked_prefill ∧
    j.prefill_chunk_size.2 = j._downstream_engine.prefill_chunk_size :=
  ⟨rfl, rfl, rfl, rfl, rfl, rfl, rfl, rfl, rfl, rfl, rfl, rfl, rfl, rfl, rfl,
   rfl, rfl⟩

theorem facade_ignores_existing_prefix_argument :
    ¬ ((mockFacade.prefill () (some mockEP) [] 0).2 =
       mockEngine.prefill () (some mockEP) [] 0 none none) := by
  intro hcontra
  have h2 := congrArg (fun p => p.1.common_prefix_tokens) hcontra
  exact absurd h2 (by decide)

/-- C8: the default `free_resource` is a no-op for any engine object of
any self type: it returns `None` and its state is untouched.
`JetStreamEngine` does not override it — its `free_resource` is the
inherited default applied to the facade object, not a forward to the
wrapped engine — so the same holds for it. -/
theorem free_resource_default_noop (σ : Type) (self : σ) (slot : Nat)
    (S : Sig) (j : JetStreamEngine S) :
    Engine.free_resource self slot = (self, none) ∧
    j.free_resource slot = (j, none) ∧
    j.free_resource slot = Engine.free_resource j slot :=
  ⟨rfl, rfl, rfl⟩

/-- C9: the facade's bookkeeping fields are `warm = False` and
`prefill_buckets = None` at construction, and every forwarded operation
and property read leaves the whole facade state — `warm`,
`prefill_buckets` and the wrapped-engine reference — unchanged. -/
theorem facade_bookkeeping_frame (S : Sig) (e : Engine S)
    (j : JetStreamEngine S) (params : S.Params)
    ( existing_prefix : Option S.Prefix) (ep_ms : Option (List Int))
    (padded_tokens : List Int) (true_length : Nat) (sampler : Option S.Sampler)
    (rng : Option S.PRNGKey) (num_samples : Nat) (pfx : S.Prefix)
    (decode_state : S.DecodeState) (slot : Nat)
    (request_id : Option S.RequestId) (slots : List Nat) (largs : S.LoadArgs)
    (iargs : S.InitArgs) (metadata : S.TokenizerParams) :
    (JetStreamEngine.init e).warm = false ∧
    (JetStreamEngine.init e).prefill_buckets = none ∧
    (JetStreamEngine.init e)._downstream_engine = e ∧
    (j.prefill params existing_prefix padded_tokens true_length).1 = j ∧
    (j.generate params decode_state).1 = j ∧
    (j.prefill_multisampling params ep_ms padded_tokens true_length sampler
        rng num_samples).1 = j ∧
    (j.insert pfx decode_state slot request_id).1 = j ∧
    (j.bulk_insert pfx decode_state slots).1 = j ∧
    (j.load_params largs).1 = j ∧
    (j.init_decode_state iargs).1 = j ∧
    j.get_tokenizer.1 = j ∧
    (j.build_tokenizer metadata).1 = j ∧
    j.get_prefix_destination_sharding.1 = j ∧
    j.max_concurrent_decodes.1 = j ∧
    j.samples_per_slot.1 = j ∧
    j.max_prefill_length.1 = j ∧
    j.mesh.1 = j ∧
    j.colocated_cpus.1 = j ∧
    j.use_chunked_prefill.1 = j ∧
    j.prefill_chunk_size.1 = j :=
  ⟨rfl, rfl, rfl, rfl, rfl, rfl, rfl, rfl, rfl, rfl, rfl, rfl, rfl, rfl, rfl,
   rfl, rfl, rfl, rfl, rfl⟩
